import Mathlib

/-!
Shallow embedding of the Pharmyrus predictive inference engine
(`predictive_layer.py`, `dynamic_confidence_engine.py`, `applicant_learning.py`)
together with theorems settling the specification claims.

Modelling conventions:
* Python `float` values are modelled as rationals (`ℚ`); Python `round(x, n)`
  (round half to even) is modelled by `pyRound`.
* Python `datetime` values are modelled as integer day numbers (`ℤ`).  All the
  arithmetic the source performs on dates is whole-day arithmetic
  (`timedelta(days = n)`, `delta.days`, order comparisons), so this is
  faithful; ISO rendering of dates (`isoformat`, `.date()`) is kept as the
  day number itself.
* Python dicts used as records are modelled as structures whose fields are
  `Option`-valued when the source reads them with `d.get(key, default)`;
  dicts used as keyed maps are modelled as association lists with
  first-match lookup (`lookupA`) and CPython update semantics (`setKeyA`).
* `datetime.now()` is passed in explicitly as a parameter named `now`.
-/

set_option maxHeartbeats 1000000

namespace Pharmyrus

/-- First-match lookup in an association list: Python `d.get(k)`. -/
def lookupA {α : Type} (k : String) : List (String × α) → Option α
  | [] => none
  | (k2, v) :: t => if k2 = k then some v else lookupA k t

/-- Python `d[k] = v`: replaces the binding of `k` in place if present,
otherwise appends it at the end (CPython dicts preserve insertion order). -/
def setKeyA {α : Type} (k : String) (v : α) : List (String × α) → List (String × α)
  | [] => [(k, v)]
  | (k2, v2) :: t => if k2 = k then (k, v) :: t else (k2, v2) :: setKeyA k v t

/-- Contiguous-substring test on character lists (defined structurally so
that it evaluates): `pat` occurs somewhere in the list. -/
def containsSub (pat : List Char) : List Char → Bool
  | [] => pat.isEmpty
  | c :: t => pat.isPrefixOf (c :: t) || containsSub pat t

/-- Python substring containment `needle in haystack`. -/
def pyIn (needle haystack : String) : Bool :=
  containsSub needle.data haystack.data

/-- The characters before the first occurrence of `sep`:
Python `s.split(sep)[0]`. -/
def pySplitHead (sep : Char) : List Char → List Char
  | [] => []
  | c :: t => if c = sep then [] else c :: pySplitHead sep t

/-- The whitespace set stripped by Python `str.strip()`. -/
def isPySpace (c : Char) : Bool :=
  c = ' ' || c = '\t' || c = '\n' || c = '\r' || c = Char.ofNat 11 || c = Char.ofNat 12

/-- Python `str.strip()`. -/
def pyStrip (l : List Char) : List Char :=
  ((l.dropWhile isPySpace).reverse.dropWhile isPySpace).reverse

/-- Python `str.replace(pat, rep)` for a nonempty pattern: replaces every
non-overlapping occurrence from the left.  The first argument is fuel
(instantiated with the length of the list), making the recursion
structural. -/
def pyReplaceAux (pat rep : List Char) : ℕ → List Char → List Char
  | _, [] => []
  | 0, l => l
  | fuel + 1, c :: t =>
    if pat ≠ [] ∧ pat.isPrefixOf (c :: t) then
      rep ++ pyReplaceAux pat rep fuel ((c :: t).drop pat.length)
    else c :: pyReplaceAux pat rep fuel t

/-- Python `str.replace` on strings (all patterns in the source are nonempty
literals). -/
def pyReplace (s pat rep : String) : String :=
  ⟨pyReplaceAux pat.data rep.data s.data.length s.data⟩

/-- ASCII lowercasing, Python `str.lower()` (all compared literals in the
source are ASCII). -/
def pyLowerChar (c : Char) : Char :=
  if 65 ≤ c.toNat ∧ c.toNat ≤ 90 then Char.ofNat (c.toNat + 32) else c

/-- Python `str.lower()`. -/
def pyLower (s : String) : String :=
  ⟨s.data.map pyLowerChar⟩

/-- Python `min(a, b)` (returns the first argument on ties). -/
def pyMin (a b : ℚ) : ℚ :=
  if a ≤ b then a else b

/-- Python `max(a, b)` (returns the first argument on ties). -/
def pyMax (a b : ℚ) : ℚ :=
  if b ≤ a then a else b

/-- Python `max(a, b)` on integers. -/
def pyMaxInt (a b : ℤ) : ℤ :=
  if b ≤ a then a else b

/-- A decimal-digit scanner, `int(s)` on an all-digit string: `none` on the
empty string or any non-digit character. -/
def digitVal? (c : Char) : Option ℕ :=
  if 48 ≤ c.toNat ∧ c.toNat ≤ 57 then some (c.toNat - 48) else none

def digitsToNatAux : ℕ → List Char → Option ℕ
  | acc, [] => some acc
  | acc, c :: t =>
    match digitVal? c with
    | some d => digitsToNatAux (acc * 10 + d) t
    | none => none

def digitsToNat? (l : List Char) : Option ℕ :=
  if l.isEmpty then none else digitsToNatAux 0 l

/-- Round half to even to an integer — the rounding mode of Python `round`. -/
def bankersRound (q : ℚ) : ℤ :=
  if q - ⌊q⌋ < 1/2 then ⌊q⌋
  else if 1/2 < q - ⌊q⌋ then ⌊q⌋ + 1
  else if ⌊q⌋ % 2 = 0 then ⌊q⌋ else ⌊q⌋ + 1

/-- Python `round(q, n)` on rationals. -/
def pyRound (q : ℚ) (n : ℕ) : ℚ :=
  (bankersRound (q * 10 ^ n) : ℚ) / 10 ^ n

/-- Rendering of a nonnegative rational with two decimal places, as produced
by the `{:.2f}` format specifiers of the source f-strings. -/
def fmt2 (q : ℚ) : String :=
  let n : ℤ := bankersRound (q * 100)
  toString (n / 100) ++ "." ++ (if n % 100 < 10 then "0" else "") ++ toString (n % 100)

/-- Rendering of a rate as a percentage, as produced by `{:.0%}`. -/
def fmtPct (q : ℚ) : String :=
  toString (bankersRound (q * 100)) ++ "%"

/-! ## `predictive_layer.py` -/

/-- The two date parsers used by `PCTTimeline.from_wo_data`
(`datetime.fromisoformat` and `datetime.strptime(_, "%Y-%m-%d")`), kept
abstract as functions from the raw string to an optional day number: the
claims depend only on whether parsing succeeds, never on the numeric value
parsed out of a well-formed date string. -/
structure DateParsers where
  fromisoformat : String → Option ℤ
  strptime10 : String → Option ℤ

/-- A WO patent record (the `wo_data` dict).  Fields the source reads with
`wo_data.get(key, default)` are `Option`-valued; `none` models a missing key. -/
structure WOData where
  wo_number : Option String
  title : Option String
  priority_date : Option String
  publication_date : Option String
  priority_country : Option String
  brazil_designated : Option Bool
  applicant : Option String
  therapeutic_area : Option String
  ipc_codes : Option (List String)
  family_size : Option ℤ

structure PCTTimeline where
  priority_date : ℤ
  publication_date : ℤ
  thirty_month_deadline : ℤ
  brazil_designated : Bool

/-- The two-stage parse cascade of `PCTTimeline.from_wo_data` for one date
field: try `fromisoformat` on the string with `"Z"` replaced by `"+00:00"`
(an empty string raises `ValueError` before parsing), and on any failure
(bare `except:`) try `strptime` on the first ten characters. -/
def parseDateCascade (p : DateParsers) (s : String) : Option ℤ :=
  match (if s = "" then none else p.fromisoformat (pyReplace s "Z" "+00:00")) with
  | some d => some d
  | none => p.strptime10 (s.take 10)

/-- `PCTTimeline.from_wo_data`.  `now` is `datetime.now()`; on a double parse
failure the source substitutes `now - 540` days for the priority date and
`now` for the publication date. -/
def PCTTimeline.from_wo_data (p : DateParsers) (wo : WOData) (now : ℤ) : PCTTimeline :=
  let priority := (parseDateCascade p (wo.priority_date.getD "")).getD (now - 540)
  let publication := (parseDateCascade p (wo.publication_date.getD "")).getD now
  { priority_date := priority
    publication_date := publication
    thirty_month_deadline := priority + 30 * 30
    brazil_designated := wo.brazil_designated.getD false }

def PCTTimeline.is_within_filing_window (t : PCTTimeline) (reference_date : ℤ) : Bool :=
  reference_date ≤ t.thirty_month_deadline

def PCTTimeline.deadline_passed (t : PCTTimeline) (reference_date : ℤ) : Bool :=
  t.thirty_month_deadline < reference_date

/-- `PCTTimeline.days_until_deadline`: the source computes
`max(0, (self.thirty_month_deadline - reference_date).days)`. -/
def PCTTimeline.days_until_deadline (t : PCTTimeline) (reference_date : ℤ) : ℤ :=
  pyMaxInt 0 (t.thirty_month_deadline - reference_date)

def PCTTimeline.expected_br_publication_window (t : PCTTimeline) : ℤ × ℤ :=
  (t.priority_date + 18 * 30, t.thirty_month_deadline + (18 * 30 + 180))

/-- `ApplicantBehavior` dataclass.  `last_updated` is an ISO timestamp in the
source; it is modelled as the day number of that timestamp. -/
structure ApplicantBehavior where
  applicant_name : String
  total_wo_brazil_designated : ℤ
  total_br_filings_found : ℤ
  filing_rate : ℚ
  therapeutic_areas : List String
  last_updated : ℤ

def ApplicantBehavior.confidence_multiplier (a : ApplicantBehavior) : ℚ :=
  if 0.90 ≤ a.filing_rate then 1.2
  else if 0.70 ≤ a.filing_rate then 1.0
  else if 0.40 ≤ a.filing_rate then 0.8
  else 0.6

def ApplicantBehavior.get_description (a : ApplicantBehavior) : String :=
  let consistency :=
    if 0.90 ≤ a.filing_rate then "highly consistent"
    else if 0.70 ≤ a.filing_rate then "consistent"
    else if 0.40 ≤ a.filing_rate then "selective"
    else "rare"
  a.applicant_name ++ ": " ++ consistency ++ " Brazil filer (" ++ fmtPct a.filing_rate
    ++ " = " ++ toString a.total_br_filings_found ++ "/"
    ++ toString a.total_wo_brazil_designated ++ ")"

structure MarketRelevance where
  therapeutic_area : String
  ipc_codes : List String

def HIGH_PRIORITY_IPC : List String :=
  ["A61K31", "A61K39", "A61P31", "A61P35", "A61P25", "A61P9", "A61P3"]

def HIGH_PRIORITY_AREAS : List String :=
  ["Oncology", "HIV/AIDS", "Tuberculosis", "Neglected Diseases", "Vaccines",
   "CNS Disorders", "Diabetes"]

def MarketRelevance.market_multiplier (m : MarketRelevance) : ℚ :=
  let ipc_relevant := m.ipc_codes.any fun ipc =>
    HIGH_PRIORITY_IPC.any fun priority => priority.data.isPrefixOf ipc.data
  let area_relevant := HIGH_PRIORITY_AREAS.any fun priority =>
    pyIn (pyLower priority) (pyLower m.therapeutic_area)
  if ipc_relevant && area_relevant then 1.2
  else if ipc_relevant || area_relevant then 1.1
  else 0.9

def MarketRelevance.get_description (m : MarketRelevance) : String :=
  let multiplier := m.market_multiplier
  if 1.2 ≤ multiplier then
    m.therapeutic_area ++ ": Very high Brazilian market relevance (SUS priority)"
  else if 1.1 ≤ multiplier then
    m.therapeutic_area ++ ": High Brazilian market relevance"
  else
    m.therapeutic_area ++ ": Standard market relevance"

/-- A BR patent record as consumed by the inference gate.  The engine only
ever reads the `patent_number` and `notes` keys of these dicts. -/
structure BRData where
  patent_number : Option String
  notes : Option String

/-- Engine state.  In the source constructor `reference_date` defaults to
`datetime.now()`; it is kept distinct from `now` here because
`PCTTimeline.from_wo_data` and the default-behavior timestamps call
`datetime.now()` directly rather than using `self.reference_date`. -/
structure PredictiveInferenceEngine where
  applicant_database : List (String × ApplicantBehavior)
  reference_date : ℤ
  now : ℤ

/-- `PredictiveInferenceEngine.should_create_inferred_event`.  Note that the
"BR already published?" check of the source tests `wo_number in
br_data.get('notes', '')` — substring containment against the `notes` field
of each known BR record. -/
def should_create_inferred_event (e : PredictiveInferenceEngine) (p : DateParsers)
    (wo_data : WOData) (existing_br_numbers : List BRData) : Bool :=
  let timeline := PCTTimeline.from_wo_data p wo_data e.now
  if !timeline.brazil_designated then false
  else
    let wo_number := wo_data.wo_number.getD ""
    if existing_br_numbers.any (fun br_data => pyIn wo_number (br_data.notes.getD "")) then
      false
    else if timeline.is_within_filing_window e.reference_date then true
    else if timeline.deadline_passed e.reference_date then
      match lookupA (wo_data.applicant.getD "Unknown") e.applicant_database with
      | some applicant => decide (0.70 ≤ applicant.filing_rate)
      | none => false
    else false

/-- Component 1 of `calculate_confidence` (PCT timeline, weight 0.30):
score and reasoning string. -/
def timelineComponent (e : PredictiveInferenceEngine) (timeline : PCTTimeline) : ℚ × String :=
  if timeline.is_within_filing_window e.reference_date then
    let days_left := timeline.days_until_deadline e.reference_date
    if 365 < days_left then
      (0.70, toString days_left ++ " days until deadline (very early stage)")
    else if 180 < days_left then
      (0.85, toString days_left ++ " days until deadline (typical filing window)")
    else if 90 < days_left then
      (0.92, toString days_left ++ " days until deadline (approaching deadline)")
    else
      (0.95, toString days_left ++ " days until deadline (imminent filing expected)")
  else
    (0.75, "30-month deadline passed; if filed, awaiting INPI publication")

/-- Component 2 of `calculate_confidence` (applicant behavior, weight 0.40):
`min(min(filing_rate, 0.95) * confidence_multiplier, 0.95)`. -/
def applicantScore (applicant : ApplicantBehavior) : ℚ :=
  pyMin (pyMin applicant.filing_rate 0.95 * applicant.confidence_multiplier) 0.95

/-- Component 3 of `calculate_confidence` (market relevance, weight 0.20). -/
def marketScore (market : MarketRelevance) : ℚ :=
  0.80 * market.market_multiplier

/-- Component 4 of `calculate_confidence` (patent family, weight 0.10):
score and reasoning string. -/
def familyComponent (family_size : ℤ) : ℚ × String :=
  if 20 ≤ family_size then
    (0.95, "Very large family (" ++ toString family_size
      ++ " members) indicates exceptional commercial value")
  else if 15 ≤ family_size then
    (0.88, "Large family (" ++ toString family_size
      ++ " members) indicates high commercial value")
  else if 8 ≤ family_size then
    (0.75, "Medium family (" ++ toString family_size
      ++ " members) indicates moderate commercial value")
  else if 4 ≤ family_size then
    (0.60, "Small family (" ++ toString family_size
      ++ " members) indicates limited commercial value")
  else
    (0.45, "Very small family (" ++ toString family_size
      ++ " members) indicates minimal commercial interest")

/-- `PredictiveInferenceEngine.classify_tier` (v30.4 recalibrated cutoffs). -/
def classify_tier (confidence : ℚ) : String :=
  if 0.95 ≤ confidence then "PUBLISHED"
  else if 0.85 ≤ confidence then "FOUND"
  else if 0.72 ≤ confidence then "INFERRED"
  else if 0.58 ≤ confidence then "EXPECTED"
  else if 0.40 ≤ confidence then "PREDICTED"
  else "SPECULATIVE"

structure FactorEntry where
  score : ℚ
  weight : ℚ
  reasoning : String

structure ApplicantFactor where
  score : ℚ
  weight : ℚ
  historical_br_filing_rate : String
  reasoning : String

structure MarketFactor where
  score : ℚ
  weight : ℚ
  therapeutic_area : String
  reasoning : String

structure FamilyFactor where
  score : ℚ
  weight : ℚ
  family_size : ℤ
  reasoning : String

structure ConfidenceFactors where
  pct_timeline : FactorEntry
  applicant_behavior : ApplicantFactor
  market_relevance : MarketFactor
  patent_family_strength : FamilyFactor

/-- The dict returned by `calculate_confidence`. -/
structure ConfidenceAnalysis where
  overall_confidence : ℚ
  confidence_tier : String
  factors : ConfidenceFactors
  combined_methodology : String

/-- `PredictiveInferenceEngine.calculate_confidence`.  The tier is classified
from the unrounded capped score; the reported `overall_confidence` (and each
factor score) is rounded to two decimals, exactly as in the source.  The
`wo_data` parameter of the source method is unused by its body. -/
def calculate_confidence (e : PredictiveInferenceEngine) (timeline : PCTTimeline)
    (applicant : ApplicantBehavior) (market : MarketRelevance) (family_size : ℤ) :
    ConfidenceAnalysis :=
  let tc := timelineComponent e timeline
  let timeline_score := tc.1
  let applicant_score := applicantScore applicant
  let market_score := marketScore market
  let fc := familyComponent family_size
  let family_score := fc.1
  let overall_confidence :=
    timeline_score * 0.30 + applicant_score * 0.40 + market_score * 0.20 + family_score * 0.10
  let overall_confidence := pyMin overall_confidence 0.95
  { overall_confidence := pyRound overall_confidence 2
    confidence_tier := classify_tier overall_confidence
    factors :=
      { pct_timeline := { score := pyRound timeline_score 2, weight := 0.30, reasoning := tc.2 }
        applicant_behavior :=
          { score := pyRound applicant_score 2
            weight := 0.40
            historical_br_filing_rate := fmtPct applicant.filing_rate ++ " ("
              ++ toString applicant.total_br_filings_found ++ "/"
              ++ toString applicant.total_wo_brazil_designated ++ ")"
            reasoning := applicant.get_description }
        market_relevance :=
          { score := pyRound market_score 2
            weight := 0.20
            therapeutic_area := market.therapeutic_area
            reasoning := market.get_description }
        patent_family_strength :=
          { score := pyRound family_score 2
            weight := 0.10
            family_size := family_size
            reasoning := fc.2 } }
    combined_methodology := "Weighted: PCT(" ++ fmt2 timeline_score ++ ")×0.3 + Applicant("
      ++ fmt2 applicant_score ++ ")×0.4 + Market(" ++ fmt2 market_score ++ ")×0.2 + Family("
      ++ fmt2 family_score ++ ")×0.1 = " ++ fmt2 overall_confidence }

structure SourcePatentSection where
  wo_number : String
  wo_title : String
  wo_publication_date : String
  priority_date : String
  priority_country : String
  applicant : String
  ipc_classification : List String
  brazil_designated : Bool

structure FilingWindow where
  earliest_possible : ℤ
  pct_30month_deadline : ℤ
  status_as_of_today : String
  likely_filed : Bool
  publication_expected : ℤ × ℤ
  publication_delay_note : String

structure JuridicalStatus where
  legal_event_type : String
  publication_status : String
  verification_status : String
  fto_relevance : String
  recommended_action : String

structure BrazilianPrediction where
  status : String
  br_number : Option String
  br_number_format_expected : String
  explanation : String
  filing_window : FilingWindow
  confidence_analysis : ConfidenceAnalysis
  juridical_status : JuridicalStatus

structure EventValidation where
  last_checked : ℤ
  inpi_search_performed : Bool
  inpi_search_query : String
  inpi_result : String
  next_verification : ℤ
  monitoring_status : String

structure CortellisComparison where
  cortellis_lists_this : Bool
  cortellis_br_number : Option String
  match_type : String
  match_explanation : String
  pharmyrus_approach : String

/-- The Cortellis benchmark input dict; only `br_number` is read. -/
structure CortellisBenchmark where
  br_number : Option String

/-- The inferred-event dict built by `create_inferred_event`. -/
structure InferredEvent where
  event_id : String
  event_type : String
  source_patent : SourcePatentSection
  brazilian_prediction : BrazilianPrediction
  validation : EventValidation
  warnings : List String
  cortellis_comparison : Option CortellisComparison

/-- `PredictiveInferenceEngine.create_inferred_event`.  The source first
extracts `existing_br_numbers` (a list of patent numbers) but never uses it;
the gate receives the raw `existing_br_data` list. -/
def create_inferred_event (e : PredictiveInferenceEngine) (p : DateParsers)
    (wo_data : WOData) (existing_br_data : List BRData)
    (cortellis_benchmark : Option CortellisBenchmark) : Option InferredEvent :=
  if should_create_inferred_event e p wo_data existing_br_data then
    let timeline := PCTTimeline.from_wo_data p wo_data e.now
    let applicant_name := wo_data.applicant.getD "Unknown"
    let applicant := (lookupA applicant_name e.applicant_database).getD
      { applicant_name := applicant_name
        total_wo_brazil_designated := 1
        total_br_filings_found := 0
        filing_rate := 0.50
        therapeutic_areas := []
        last_updated := e.now }
    let market : MarketRelevance :=
      { therapeutic_area := wo_data.therapeutic_area.getD "Unknown"
        ipc_codes := wo_data.ipc_codes.getD [] }
    let family_size := wo_data.family_size.getD 1
    let confidence_analysis := calculate_confidence e timeline applicant market family_size
    let within := timeline.is_within_filing_window e.reference_date
    let filing_status :=
      if within then "INFERRED_FILING_EXPECTED" else "LIKELY_FILED_AWAITING_PUBLICATION"
    let deadline_status := if within then "DEADLINE_NOT_YET_PASSED" else "DEADLINE_PASSED"
    let likely_filed :=
      if within then decide (0.70 ≤ confidence_analysis.overall_confidence) else true
    let pw := timeline.expected_br_publication_window
    some
      { event_id := "INF-" ++ pyReplace (wo_data.wo_number.getD "UNKNOWN") "/" "-"
        event_type := "EXPECTED_BR_NATIONAL_PHASE_ENTRY"
        source_patent :=
          { wo_number := wo_data.wo_number.getD ""
            wo_title := wo_data.title.getD ""
            wo_publication_date := wo_data.publication_date.getD ""
            priority_date := wo_data.priority_date.getD ""
            priority_country := wo_data.priority_country.getD ""
            applicant := applicant_name
            ipc_classification := wo_data.ipc_codes.getD []
            brazil_designated := true }
        brazilian_prediction :=
          { status := filing_status
            -- CRITICAL comment in the source: "Never fabricate BR number".
            br_number := none
            br_number_format_expected := "BR11YYYYNNNNNNC"
            explanation := "BR number assigned sequentially by INPI upon national phase entry - not algorithmically predictable from WO number"
            filing_window :=
              { earliest_possible := timeline.priority_date
                pct_30month_deadline := timeline.thirty_month_deadline
                status_as_of_today := deadline_status
                likely_filed := likely_filed
                publication_expected := pw
                publication_delay_note := "INPI publication backlog may delay RPI appearance by 2-6 months beyond 18-month statutory period" }
            confidence_analysis := confidence_analysis
            juridical_status :=
              { legal_event_type := "EXPECTED_NATIONAL_PHASE_ENTRY"
                publication_status := "NOT_YET_PUBLISHED_IN_INPI_RPI"
                verification_status := "INFERRED_FROM_PCT_FAMILY_ANALYSIS"
                fto_relevance :=
                  if 0.70 ≤ confidence_analysis.overall_confidence then "HIGH" else "MEDIUM"
                recommended_action := "Monitor INPI RPI publications; search INPI database using PCT number "
                  ++ wo_data.wo_number.getD "" } }
        validation :=
          { last_checked := e.reference_date
            inpi_search_performed := true
            inpi_search_query := wo_data.wo_number.getD ""
            inpi_result := "NOT_FOUND"
            next_verification := e.reference_date + 30
            monitoring_status := "ACTIVE" }
        warnings :=
          ["⚠️ This is a PREDICTIVE legal event, not a published patent",
           "⚠️ BR application number cannot be determined until INPI publication",
           "⚠️ Confidence score reflects statistical probability, not certainty",
           "⚠️ Should be verified independently before legal reliance",
           "⚠️ Publication delays at INPI may extend beyond standard 18-month timeline"]
        cortellis_comparison := cortellis_benchmark.map fun cb =>
          { cortellis_lists_this := true
            cortellis_br_number := cb.br_number
            match_type := "LOGICAL_MATCH"
            match_explanation := "Cortellis lists this BR based on expected national phase entry (same inference logic). BR number shown in Cortellis may be: (a) actually filed and in INPI database but not yet in RPI, (b) inferred by Cortellis using similar methodology, or (c) obtained from applicant disclosure."
            pharmyrus_approach := "We infer the EXISTENCE of the filing based on PCT family + deadlines, but do NOT fabricate a specific BR number. Cortellis may have access to earlier filing data or may also be inferring." } }
  else none

/-! ## `applicant_learning.py` -/

/-- A stored applicant record of the learning database.  The fields the
source round-trips through Python sets (`observed_wos`, `observed_brs`,
`therapeutic_areas`) are modelled as `Finset String`; `last_updated` (an ISO
timestamp string in the source) is modelled as the day number of the
timestamp. -/
structure LearnedEntry where
  applicant_name : String
  total_wo_brazil_designated : ℤ
  total_br_filings_found : ℤ
  filing_rate : ℚ
  therapeutic_areas : Finset String
  observed_wos : Finset String
  observed_brs : Finset String
  last_updated : ℤ
  data_source : String
  confidence : String

/-- `ApplicantLearningSystem._normalize_applicant_name`. -/
def _normalize_applicant_name (applicant : String) : String :=
  if applicant = "" then "Unknown"
  else
    let a : String := ⟨pyStrip (pySplitHead ',' (pySplitHead ';' applicant.data))⟩
    let a := pyReplace a "Inc." "Inc"
    let a := pyReplace a "Ltd." "Ltd"
    let a := pyReplace a "S.A." "SA"
    let a := pyReplace a "Co." "Co"
    let a := pyReplace a "Corp." "Corp"
    ⟨pyStrip a.data⟩

/-- `ApplicantLearningSystem._calculate_confidence`: evidence level from
sample size. -/
def _calculate_confidence (total_wos : ℤ) : String :=
  if 30 ≤ total_wos then "high"
  else if 15 ≤ total_wos then "medium"
  else "low"

/-- `ApplicantLearningSystem.get_applicant_behavior`: exact lookup on the
normalized key; `None` when absent. -/
def get_applicant_behavior (database : List (String × LearnedEntry)) (applicant : String) :
    Option LearnedEntry :=
  lookupA (_normalize_applicant_name applicant) database

/-- `ApplicantLearningSystem._update_applicant`.  Returns the `True if
database was modified` flag together with the resulting database; in-place
mutation of the entry dict is modelled by re-binding the key. -/
def _update_applicant (database : List (String × LearnedEntry)) (applicant : String)
    (wos brs areas : Finset String) (now : ℤ) :
    Bool × List (String × LearnedEntry) :=
  if wos.card = 0 then (false, database)
  else
    match lookupA applicant database with
    | some entry =>
      let existing_wos := entry.observed_wos
      let existing_brs := entry.observed_brs
      let existing_areas := entry.therapeutic_areas
      let combined_wos := existing_wos ∪ wos
      let combined_brs := existing_brs ∪ brs
      let combined_areas := existing_areas ∪ areas
      if combined_wos = existing_wos ∧ combined_brs = existing_brs then (false, database)
      else
        let total_wos : ℤ := combined_wos.card
        let total_brs : ℤ := combined_brs.card
        let filing_rate : ℚ :=
          if 0 < total_wos then (total_brs : ℚ) / (total_wos : ℚ) else entry.filing_rate
        (true, setKeyA applicant
          { applicant_name := entry.applicant_name
            total_wo_brazil_designated := total_wos
            total_br_filings_found := total_brs
            filing_rate := pyRound filing_rate 2
            therapeutic_areas := combined_areas
            observed_wos := combined_wos
            observed_brs := combined_brs
            last_updated := now
            data_source := "learned_from_searches"
            confidence := _calculate_confidence total_wos } database)
    | none =>
      let total_wos : ℤ := wos.card
      let total_brs : ℤ := brs.card
      let filing_rate : ℚ :=
        if 0 < total_wos then (total_brs : ℚ) / (total_wos : ℚ) else 0.5
      (true, setKeyA applicant
        { applicant_name := applicant
          total_wo_brazil_designated := total_wos
          total_br_filings_found := total_brs
          filing_rate := pyRound filing_rate 2
          therapeutic_areas := areas
          observed_wos := wos
          observed_brs := brs
          last_updated := now
          data_source := "learned_from_searches"
          confidence := _calculate_confidence total_wos } database)

/-! ## `dynamic_confidence_engine.py`

`DynamicConfidenceEngine.finalize_and_classify` performs a shallow
`pred.copy()` of each prediction dict and then writes into the nested
`confidence_analysis` dict reached through the copy.  Because the copy is
shallow, that nested dict is the very object the caller passed in.  To model
this reference sharing faithfully, the nested `confidence_analysis` dicts
live in a heap (`store`, a list indexed by address) and each prediction holds
the address of its dict; a shallow copy duplicates the address, not the
dict. -/

namespace DCE

/-- The nested `confidence_analysis` dict of a prediction.  The keys that
`finalize_and_classify` adds are `Option`-valued (`none` = key absent). -/
structure ConfAnalysis where
  overall_confidence : ℚ
  confidence_tier : String
  classification_method : Option String
  rank_percentile : Option ℚ

/-- The fields of a prediction dict read by the engine.  `conf_addr` is the
heap address of the nested `confidence_analysis` dict. -/
structure PredObj where
  publication_date : Option String
  inventors : Option (List String)
  days_until_deadline : Option ℚ
  conf_addr : ℕ

/-- `int(pub_date[:4]) if pub_date else 2020` for the publication-date
feature.  (On a string whose first four characters are not digits the source
would raise; modelled inputs are well-formed date strings.) -/
def pyYear (pub_date : Option String) : ℤ :=
  let s := pub_date.getD "2020-01-01"
  if s = "" then 2020 else ((digitsToNat? (s.data.take 4)).getD 0 : ℤ)

/-- `len(inventors) if inventors else 1`. -/
def invCount (inventors : Option (List String)) : ℤ :=
  match inventors.getD [] with
  | [] => 1
  | l => l.length

/-- Engine state: `self.predictions`, `self.raw_scores`, and the heap of
nested `confidence_analysis` dicts. -/
structure EngineState where
  predictions : List PredObj
  raw_scores : List ℚ
  store : List ConfAnalysis

/-- `DynamicConfidenceEngine.add_prediction`: appends the prediction and the
raw score read (with default 0.50) from its nested dict. -/
def add_prediction (st : EngineState) (pred : PredObj) : EngineState :=
  let conf := st.store.get? pred.conf_addr
  let raw_score := (conf.map (fun c => c.overall_confidence)).getD 0.50
  { st with
    predictions := st.predictions ++ [pred]
    raw_scores := st.raw_scores ++ [raw_score] }

/-- Step 1 of `finalize_and_classify`: the composite rank key of prediction
`i`.  (`self.raw_scores[i]` in the source; `add_prediction` keeps
`raw_scores` aligned with `predictions`, so the lookup default is never hit
for states built through it.) -/
def compositeScore (st : EngineState) (i : ℕ) (pred : PredObj) : ℚ :=
  let base_score := (st.raw_scores.get? i).getD 0
  let year := pyYear pred.publication_date
  let days_left := pred.days_until_deadline.getD 180
  base_score * 1000 + ((year : ℚ) - 2015) * 1.0 + (invCount pred.inventors : ℚ) * 0.5
    + (365 - days_left) * 0.01

/-- Stable insertion into a list sorted by descending composite key: the new
element goes after every element whose key is ≥ its own, matching the
stability of Python `sorted(..., reverse=True)`. -/
def insertDesc (x : ℕ × ℚ × ℚ) : List (ℕ × ℚ × ℚ) → List (ℕ × ℚ × ℚ)
  | [] => [x]
  | y :: t => if x.2.1 ≤ y.2.1 then y :: insertDesc x t else x :: y :: t

/-- Stable sort by descending composite key (step 2). -/
def sortDesc (l : List (ℕ × ℚ × ℚ)) : List (ℕ × ℚ × ℚ) :=
  l.foldl (fun acc x => insertDesc x acc) []

/-- Step 3 of `finalize_and_classify`: forced percentile bands.  `rank` is
the zero-based rank, `percentile = rank / total * 100`. -/
def tierForRank (rank total : ℕ) (base_score : ℚ) : String × ℚ :=
  let percentile : ℚ := (rank : ℚ) / (total : ℚ) * 100
  if percentile < 15 then ("FOUND", pyMin (base_score + 0.20) 0.95)
  else if percentile < 40 then ("INFERRED", pyMin (base_score + 0.10) 0.90)
  else if percentile < 75 then ("EXPECTED", base_score)
  else if percentile < 95 then ("PREDICTED", pyMax (base_score - 0.05) 0.40)
  else ("SPECULATIVE", pyMax (base_score - 0.10) 0.35)

/-- First-match lookup by numeric key (the `tier_assignments` dict). -/
def lookupN {α : Type} (k : ℕ) : List (ℕ × α) → Option α
  | [] => none
  | (k2, v) :: t => if k2 = k then some v else lookupN k t

/-- One iteration of step 4 of `finalize_and_classify` for prediction
`(i, pred)`: writes the recalibrated values into the nested
`confidence_analysis` dict at `pred.conf_addr`.  (`List.set` is a no-op on a
dangling address, matching a write into a fresh `{}` produced by
`.get(..., {})` on a prediction that lacks the nested dicts.) -/
def applyAssignment (st : EngineState) (assignments : List (ℕ × String × ℚ))
    (sorted_preds : List (ℕ × ℚ × ℚ)) (total : ℕ)
    (store : List ConfAnalysis) (ip : ℕ × PredObj) : List ConfAnalysis :=
  match lookupN ip.1 assignments with
  | none => store
  | some (tier, adj_score) =>
    let base := (st.raw_scores.get? ip.1).getD 0
    let pos : ℕ := sorted_preds.findIdx
      (fun t => decide (t = (ip.1, compositeScore st ip.1 ip.2, base)))
    let conf := (store.get? ip.2.conf_addr).getD
      { overall_confidence := 0.50, confidence_tier := "", classification_method := none
        rank_percentile := none }
    store.set ip.2.conf_addr
      { conf with
        overall_confidence := pyRound adj_score 2
        confidence_tier := tier
        classification_method := some "rank_based_forced_distribution"
        rank_percentile := some (pyRound ((pos : ℚ) / (total : ℚ) * 100) 1) }

/-- `DynamicConfidenceEngine.finalize_and_classify`.  Returns the list of
updated predictions (shallow copies of the inputs — value-identical here,
since a shallow copy duplicates every field including `conf_addr`) together
with the heap after the in-place writes of step 4. -/
def finalize_and_classify (st : EngineState) : List PredObj × List ConfAnalysis :=
  if st.predictions.isEmpty then ([], st.store)
  else
    let composite_scores := st.predictions.enum.map fun ip =>
      (ip.1, compositeScore st ip.1 ip.2, (st.raw_scores.get? ip.1).getD 0)
    let sorted_preds := sortDesc composite_scores
    let total := sorted_preds.length
    let tier_assignments := sorted_preds.enum.map fun rt =>
      (rt.2.1, tierForRank rt.1 total rt.2.2.2)
    let updated_store := st.predictions.enum.foldl
      (applyAssignment st tier_assignments sorted_preds total) st.store
    (st.predictions, updated_store)

end DCE

/-! ## `add_predictive_layer` (top-level JSON assembly) -/

/-- JSON-like values for the top-level Pharmyrus document.  Dates rendered by
`isoformat()` in the source are kept as their day number (`num`). -/
inductive PJson where
  | null : PJson
  | bool : Bool → PJson
  | num : ℚ → PJson
  | str : String → PJson
  | arr : List PJson → PJson
  | obj : List (String × PJson) → PJson

/-- The list held under a key such as `main_json['inpi']` (the source indexes
it directly; a non-list value would raise there). -/
def PJson.asArr : PJson → List PJson
  | PJson.arr l => l
  | _ => []

/-- Reads a string member of a JSON object, as `br.get(key, '')` does on the
BR dicts (a non-string value would raise inside the substring test). -/
def PJson.getStr (fields : List (String × PJson)) (k : String) : Option String :=
  match lookupA k fields with
  | some (PJson.str s) => some s
  | _ => none

/-- Conversion of a raw BR record from the main document into the fields the
gate reads. -/
def brOfPJson : PJson → BRData
  | PJson.obj fields => { patent_number := PJson.getStr fields "patent_number"
                          notes := PJson.getStr fields "notes" }
  | _ => { patent_number := none, notes := none }

/-- `build_methodology_section()`: the constant methodology dict.  Every key
and the overall structure follow the source; the long prose bodies
(descriptions, disclaimers) are abbreviated, since no claim depends on the
rendered text. -/
def build_methodology_section : PJson :=
  PJson.obj
    [("type", PJson.str "hybrid_juridical_inference"),
     ("version", PJson.str "v30.3-HYBRID-INFERENCE"),
     ("description_en", PJson.str "Inference of expected Brazilian national phase entries based on PCT/WIPO filings, applicant historical behavior, and statutory timelines (PCT Articles 22/39: 30 months from priority)."),
     ("description_pt", PJson.str "Inferencia de entradas esperadas em fase nacional brasileira baseada em depositos PCT/WIPO, comportamento historico do depositante e prazos estatutarios."),
     ("legal_framework", PJson.arr
       [PJson.str "PCT Articles 22/39: National Phase Entry (30 months from earliest priority date)",
        PJson.str "Brazilian Patent Law 9.279/96: INPI filing requirements and timelines",
        PJson.str "WIPO PLT (Patent Law Treaty): International filing standards",
        PJson.str "Industry standards: AIPLA FTO Guidelines, pharmaceutical IP best practices"]),
     ("data_sources", PJson.arr
       [PJson.str "WIPO PATENTSCOPE: PCT publication data and family linkage",
        PJson.str "EPO INPADOC: Patent family relationships and legal status",
        PJson.str "Internal applicant database: Historical filing behavior analysis (2019-2024)",
        PJson.str "ANVISA regulatory intelligence: Therapeutic area market relevance",
        PJson.str "Cortellis benchmark validation: Historical accuracy verification"]),
     ("confidence_model", PJson.obj
       [("type", PJson.str "hybrid_rule_ml"),
        ("description", PJson.str "Weighted combination of deterministic PCT timeline analysis and statistical applicant behavior modeling"),
        ("components", PJson.arr
          [PJson.obj [("name", PJson.str "pct_timeline_analysis"),
                      ("type", PJson.str "deterministic"), ("weight", PJson.num 0.30),
                      ("description", PJson.str "Rule-based calculation of filing window based on PCT Articles 22/39")],
           PJson.obj [("name", PJson.str "applicant_filing_pattern"),
                      ("type", PJson.str "statistical"), ("weight", PJson.num 0.40),
                      ("description", PJson.str "Historical analysis of Brazilian national phase entry rate")],
           PJson.obj [("name", PJson.str "market_relevance_scoring"),
                      ("type", PJson.str "heuristic"), ("weight", PJson.num 0.20),
                      ("description", PJson.str "Therapeutic area alignment with Brazilian market priorities (ANVISA, SUS)")],
           PJson.obj [("name", PJson.str "patent_family_strength"),
                      ("type", PJson.str "indicator"), ("weight", PJson.num 0.10),
                      ("description", PJson.str "Family size as proxy for commercial importance")]]),
        ("calibration", PJson.str "Backtested against 2022-2024 INPI publications: 85% precision, 92% recall at 60% confidence threshold"),
        ("validation", PJson.str "Continuous monitoring against Cortellis benchmarks for logical match verification")]),
     ("certainty_tiers", PJson.obj
       [("PUBLISHED", PJson.obj [("range", PJson.str "0.95-1.00"),
          ("definition", PJson.str "Official gazette publication verified in INPI RPI"),
          ("usage", PJson.str "Only for patents confirmed published")]),
        ("FOUND", PJson.obj [("range", PJson.str "0.85-0.94"),
          ("definition", PJson.str "Located in commercial databases with cross-validation"),
          ("usage", PJson.str "Patents found in Google Patents or other sources pending INPI confirmation")]),
        ("INFERRED", PJson.obj [("range", PJson.str "0.70-0.84"),
          ("definition", PJson.str "Derived from patent family relationships + PCT timeline rules"),
          ("usage", PJson.str "High-confidence predictions based on PCT family structure")]),
        ("EXPECTED", PJson.obj [("range", PJson.str "0.50-0.69"),
          ("definition", PJson.str "Anticipated based on applicant historical patterns"),
          ("usage", PJson.str "Moderate-confidence predictions for selective filers")]),
        ("PREDICTED", PJson.obj [("range", PJson.str "0.30-0.49"),
          ("definition", PJson.str "Statistical model output without strong corroboration"),
          ("usage", PJson.str "Low-confidence predictions, should be treated cautiously")]),
        ("SPECULATIVE", PJson.obj [("range", PJson.str "0.00-0.29"),
          ("definition", PJson.str "Purely future-looking prediction without historical basis"),
          ("usage", PJson.str "Not used in current methodology - reserved for future ML enhancements")])]),
     ("legal_disclaimer", PJson.obj
       [("en", PJson.str "This analysis reflects publicly available patent information as of the generation date shown and should be independently verified before reliance."),
        ("pt", PJson.str "Esta analise reflete informacoes de patentes publicamente disponiveis na data de geracao indicada e deve ser validada independentemente.")]),
     ("transparency_note", PJson.obj
       [("en", PJson.str "This methodology is fully transparent and auditable; all confidence scores are calculated using documented weights and factors."),
        ("pt", PJson.str "Esta metodologia e completamente transparente e auditavel; todos os scores sao calculados com pesos e fatores documentados.")])]

def FactorEntry.toPJson (f : FactorEntry) : PJson :=
  PJson.obj [("score", PJson.num f.score), ("weight", PJson.num f.weight),
             ("reasoning", PJson.str f.reasoning)]

def ApplicantFactor.toPJson (f : ApplicantFactor) : PJson :=
  PJson.obj [("score", PJson.num f.score), ("weight", PJson.num f.weight),
             ("historical_br_filing_rate", PJson.str f.historical_br_filing_rate),
             ("reasoning", PJson.str f.reasoning)]

def MarketFactor.toPJson (f : MarketFactor) : PJson :=
  PJson.obj [("score", PJson.num f.score), ("weight", PJson.num f.weight),
             ("therapeutic_area", PJson.str f.therapeutic_area),
             ("reasoning", PJson.str f.reasoning)]

def FamilyFactor.toPJson (f : FamilyFactor) : PJson :=
  PJson.obj [("score", PJson.num f.score), ("weight", PJson.num f.weight),
             ("family_size", PJson.num f.family_size),
             ("reasoning", PJson.str f.reasoning)]

def ConfidenceAnalysis.toPJson (c : ConfidenceAnalysis) : PJson :=
  PJson.obj [("overall_confidence", PJson.num c.overall_confidence),
             ("confidence_tier", PJson.str c.confidence_tier),
             ("factors", PJson.obj
               [("pct_timeline", c.factors.pct_timeline.toPJson),
                ("applicant_behavior", c.factors.applicant_behavior.toPJson),
                ("market_relevance", c.factors.market_relevance.toPJson),
                ("patent_family_strength", c.factors.patent_family_strength.toPJson)]),
             ("combined_methodology", PJson.str c.combined_methodology)]

def optStrPJson : Option String → PJson
  | some s => PJson.str s
  | none => PJson.null

def InferredEvent.toPJson (ev : InferredEvent) : PJson :=
  PJson.obj
    [("event_id", PJson.str ev.event_id),
     ("event_type", PJson.str ev.event_type),
     ("source_patent", PJson.obj
       [("wo_number", PJson.str ev.source_patent.wo_number),
        ("wo_title", PJson.str ev.source_patent.wo_title),
        ("wo_publication_date", PJson.str ev.source_patent.wo_publication_date),
        ("priority_date", PJson.str ev.source_patent.priority_date),
        ("priority_country", PJson.str ev.source_patent.priority_country),
        ("applicant", PJson.str ev.source_patent.applicant),
        ("ipc_classification", PJson.arr (ev.source_patent.ipc_classification.map PJson.str)),
        ("brazil_designated", PJson.bool ev.source_patent.brazil_designated)]),
     ("brazilian_prediction", PJson.obj
       [("status", PJson.str ev.brazilian_prediction.status),
        ("br_number", optStrPJson ev.brazilian_prediction.br_number),
        ("br_number_format_expected", PJson.str ev.brazilian_prediction.br_number_format_expected),
        ("explanation", PJson.str ev.brazilian_prediction.explanation),
        ("filing_window", PJson.obj
          [("earliest_possible", PJson.num ev.brazilian_prediction.filing_window.earliest_possible),
           ("pct_30month_deadline", PJson.num ev.brazilian_prediction.filing_window.pct_30month_deadline),
           ("status_as_of_today", PJson.str ev.brazilian_prediction.filing_window.status_as_of_today),
           ("likely_filed", PJson.bool ev.brazilian_prediction.filing_window.likely_filed),
           ("publication_expected", PJson.arr
             [PJson.num ev.brazilian_prediction.filing_window.publication_expected.1,
              PJson.num ev.brazilian_prediction.filing_window.publication_expected.2]),
           ("publication_delay_note", PJson.str ev.brazilian_prediction.filing_window.publication_delay_note)]),
        ("confidence_analysis", ev.brazilian_prediction.confidence_analysis.toPJson),
        ("juridical_status", PJson.obj
          [("legal_event_type", PJson.str ev.brazilian_prediction.juridical_status.legal_event_type),
           ("publication_status", PJson.str ev.brazilian_prediction.juridical_status.publication_status),
           ("verification_status", PJson.str ev.brazilian_prediction.juridical_status.verification_status),
           ("fto_relevance", PJson.str ev.brazilian_prediction.juridical_status.fto_relevance),
           ("recommended_action", PJson.str ev.brazilian_prediction.juridical_status.recommended_action)])]),
     ("validation", PJson.obj
       [("last_checked", PJson.num ev.validation.last_checked),
        ("inpi_search_performed", PJson.bool ev.validation.inpi_search_performed),
        ("inpi_search_query", PJson.str ev.validation.inpi_search_query),
        ("inpi_result", PJson.str ev.validation.inpi_result),
        ("next_verification", PJson.num ev.validation.next_verification),
        ("monitoring_status", PJson.str ev.validation.monitoring_status)]),
     ("warnings", PJson.arr (ev.warnings.map PJson.str))]
  -- the optional cortellis_comparison section is appended when present
  |> fun base =>
    match ev.cortellis_comparison, base with
    | some cc, PJson.obj fields =>
      PJson.obj (fields ++
        [("cortellis_comparison", PJson.obj
          [("cortellis_lists_this", PJson.bool cc.cortellis_lists_this),
           ("cortellis_br_number", optStrPJson cc.cortellis_br_number),
           ("match_type", PJson.str cc.match_type),
           ("match_explanation", PJson.str cc.match_explanation),
           ("pharmyrus_approach", PJson.str cc.pharmyrus_approach)])])
    | _, b => b

/-- `add_predictive_layer`: the top-level entry point.  `main_json` is the
top-level dict of the current Pharmyrus document; the source copies it
(`main_json.copy()`) and assigns `enhanced_json['predictive_intelligence']`,
which `setKeyA` models exactly.  `now` is `datetime.now()` (used both for
the engine reference date and `generated_at`). -/
def add_predictive_layer (p : DateParsers) (main_json : List (String × PJson))
    (wipo_patents : List WOData) (applicant_database : List (String × ApplicantBehavior))
    (cortellis_benchmark : Option CortellisBenchmark) (now : ℤ) :
    List (String × PJson) :=
  let engine : PredictiveInferenceEngine :=
    { applicant_database := applicant_database, reference_date := now, now := now }
  let existing_br_data :=
    (((lookupA "inpi" main_json).map PJson.asArr).getD []).map brOfPJson
      ++ (((lookupA "google_br" main_json).map PJson.asArr).getD []).map brOfPJson
  let inferred_events := wipo_patents.filterMap fun wo =>
    create_inferred_event engine p wo existing_br_data cortellis_benchmark
  let tier_summary : List (String × PJson) :=
    ["INFERRED", "EXPECTED", "PREDICTED", "SPECULATIVE"].map fun tier =>
      (tier, PJson.num ((inferred_events.filter
        (fun ev => ev.brazilian_prediction.confidence_analysis.confidence_tier = tier)).length))
  let average_confidence : ℚ :=
    if inferred_events.isEmpty then 0.0
    else pyRound
      ((inferred_events.map
          (fun ev => ev.brazilian_prediction.confidence_analysis.overall_confidence)).sum
        / (inferred_events.length : ℚ)) 2
  let predictive_layer : PJson := PJson.obj
    [("version", PJson.str "v30.3-HYBRID-INFERENCE"),
     ("generated_at", PJson.num now),
     ("methodology", build_methodology_section),
     ("inferred_events", PJson.arr (inferred_events.map InferredEvent.toPJson)),
     ("summary", PJson.obj
       [("total_wipo_patents_analyzed", PJson.num wipo_patents.length),
        ("total_existing_br_patents", PJson.num existing_br_data.length),
        ("total_inferred_events", PJson.num inferred_events.length),
        ("by_confidence_tier", PJson.obj tier_summary),
        ("average_confidence", PJson.num average_confidence)])]
  setKeyA "predictive_intelligence" predictive_layer main_json

/-! ## Supporting lemmas -/

theorem bankersRound_le_ceil (q : ℚ) : bankersRound q ≤ ⌈q⌉ := by
  have hfc : ⌊q⌋ ≤ ⌈q⌉ := Int.floor_le_ceil q
  have hlt : (1/2 : ℚ) ≤ q - ⌊q⌋ → ⌊q⌋ + 1 ≤ ⌈q⌉ := by
    intro h
    have hq : (⌊q⌋ : ℚ) < q := by linarith
    exact Int.add_one_le_iff.mpr (Int.lt_ceil.mpr hq)
  unfold bankersRound
  split_ifs with h1 h2 h3
  · exact hfc
  · exact hlt h2.le
  · exact hfc
  · exact hlt (le_of_not_lt h1)

theorem pyRound_le_095 (q : ℚ) (h : q ≤ 0.95) : pyRound q 2 ≤ 0.95 := by
  have h1 : bankersRound (q * 10 ^ 2) ≤ ⌈q * 10 ^ 2⌉ := bankersRound_le_ceil _
  have h2 : ⌈q * 10 ^ 2⌉ ≤ (95 : ℤ) := Int.ceil_le.mpr (by push_cast; linarith)
  have h3 : (bankersRound (q * 10 ^ 2) : ℚ) ≤ 95 := by exact_mod_cast le_trans h1 h2
  unfold pyRound
  rw [div_le_iff₀ (by norm_num)]
  norm_num at h3 ⊢
  linarith

theorem lookupA_setKeyA_self {α : Type} (k : String) (v : α) (l : List (String × α)) :
    lookupA k (setKeyA k v l) = some v := by
  induction l with
  | nil => simp [setKeyA, lookupA]
  | cons h t ih =>
    by_cases hk : h.1 = k
    · simp [setKeyA, lookupA, hk]
    · simpa [setKeyA, lookupA, hk] using ih

theorem lookupA_setKeyA_ne {α : Type} (k k2 : String) (v : α) (l : List (String × α))
    (h : k ≠ k2) : lookupA k (setKeyA k2 v l) = lookupA k l := by
  induction l with
  | nil => simp [setKeyA, lookupA, Ne.symm h]
  | cons hd t ih =>
    by_cases hk : hd.1 = k2
    · simp [setKeyA, lookupA, hk, Ne.symm h]
    · simp [setKeyA, lookupA, hk, ih]

theorem isPrefixOf_self (l : List Char) : l.isPrefixOf l = true := by
  induction l with
  | nil => rfl
  | cons c t ih => simp [List.isPrefixOf, ih]

theorem days_until_deadline_eq_max (t : PCTTimeline) (r : ℤ) :
    t.days_until_deadline r = max 0 (t.thirty_month_deadline - r) := by
  unfold PCTTimeline.days_until_deadline pyMaxInt
  split_ifs with h <;> omega

theorem pyIn_self (s : String) : pyIn s s = true := by
  unfold pyIn
  cases h : s.data with
  | nil => rfl
  | cons c t =>
    unfold containsSub
    rw [isPrefixOf_self]
    rfl

/-! ### Supporting lemmas for the calibrator heap model -/

theorem get?_set_self {α : Type} : ∀ (l : List α) (i : ℕ) (a : α), i < l.length →
    (l.set i a).get? i = some a
  | [], i, a, h => absurd h (by simp)
  | x :: t, 0, a, _ => rfl
  | x :: t, i + 1, a, h => get?_set_self t i a (by simpa using h)

theorem get?_set_ne {α : Type} : ∀ (l : List α) (i j : ℕ) (a : α), i ≠ j →
    (l.set j a).get? i = l.get? i
  | [], _, _, _, _ => rfl
  | x :: t, 0, 0, a, h => absurd rfl h
  | x :: t, 0, j + 1, a, _ => rfl
  | x :: t, i + 1, 0, a, _ => rfl
  | x :: t, i + 1, j + 1, a, h =>
    get?_set_ne t i j a (fun hc => h (by omega))

theorem mem_enumFrom_of_get? {α : Type} :
    ∀ (l : List α) (n i : ℕ) (a : α), l.get? i = some a → (n + i, a) ∈ l.enumFrom n := by
  intro l
  induction l with
  | nil => intro n i a h; exact Option.noConfusion h
  | cons x t ih =>
    intro n i a h
    match i with
    | 0 =>
      cases Option.some.inj h
      exact List.mem_cons_self _ _
    | i + 1 =>
      have h2 := ih (n + 1) i a h
      have h3 : n + 1 + i = n + (i + 1) := by omega
      rw [h3] at h2
      exact List.mem_cons_of_mem _ h2

theorem mem_enum_of_get? {α : Type} (l : List α) (i : ℕ) (a : α) (h : l.get? i = some a) :
    (i, a) ∈ l.enum := by
  have h2 := mem_enumFrom_of_get? l 0 i a h
  rwa [Nat.zero_add] at h2

theorem exists_enum_of_mem {α : Type} (l : List α) (a : α) (h : a ∈ l) :
    ∃ r, (r, a) ∈ l.enum := by
  obtain ⟨⟨i, hlt⟩, hget⟩ := List.mem_iff_get.mp h
  refine ⟨i, mem_enum_of_get? l i a ?_⟩
  rw [List.get?_eq_get hlt, hget]

theorem DCE.insertDesc_perm (x : ℕ × ℚ × ℚ) :
    ∀ l : List (ℕ × ℚ × ℚ), (DCE.insertDesc x l).Perm (x :: l) := by
  intro l
  induction l with
  | nil => exact List.Perm.refl _
  | cons y t ih =>
    unfold DCE.insertDesc
    split_ifs
    · exact (ih.cons y).trans (List.Perm.swap x y t)
    · exact List.Perm.refl _

theorem DCE.foldl_insertDesc_perm :
    ∀ (l acc : List (ℕ × ℚ × ℚ)),
      (List.foldl (fun a x => DCE.insertDesc x a) acc l).Perm (acc ++ l) := by
  intro l
  induction l with
  | nil => intro acc; simp
  | cons x t ih =>
    intro acc
    have h1 := ih (DCE.insertDesc x acc)
    have h2 : (DCE.insertDesc x acc ++ t).Perm ((x :: acc) ++ t) :=
      (DCE.insertDesc_perm x acc).append_right t
    have h3 : (acc ++ x :: t).Perm (x :: (acc ++ t)) := List.perm_middle
    simp only [List.foldl_cons]
    exact (h1.trans h2).trans h3.symm

theorem DCE.sortDesc_perm (l : List (ℕ × ℚ × ℚ)) : (DCE.sortDesc l).Perm l := by
  have h := DCE.foldl_insertDesc_perm l []
  simpa [DCE.sortDesc] using h

theorem lookupN_isSome_of_mem_fst {α : Type} :
    ∀ (l : List (ℕ × α)) (k : ℕ), k ∈ l.map Prod.fst → ∃ v, DCE.lookupN k l = some v := by
  intro l
  induction l with
  | nil => intro k h; simp at h
  | cons x t ih =>
    intro k h
    by_cases hk : x.1 = k
    · exact ⟨x.2, by simp [DCE.lookupN, hk]⟩
    · have h2 : k ∈ t.map Prod.fst := by
        rcases List.mem_map.mp h with ⟨y, hy, hfst⟩
        rcases List.mem_cons.mp hy with rfl | hyt
        · exact absurd hfst hk
        · exact List.mem_map.mpr ⟨y, hyt, hfst⟩
      obtain ⟨v, hv⟩ := ih k h2
      exact ⟨v, by simp [DCE.lookupN, hk, hv]⟩

/-- Every prediction index has a tier assignment: the sorted list is a
permutation of the composite-score list, whose indices are exactly the
prediction indices. -/
theorem DCE.assignment_exists (st : DCE.EngineState) (i : ℕ) (pred : DCE.PredObj)
    (h : st.predictions.get? i = some pred) :
    ∃ v, DCE.lookupN i
      ((DCE.sortDesc (st.predictions.enum.map fun ip =>
          (ip.1, DCE.compositeScore st ip.1 ip.2, (st.raw_scores.get? ip.1).getD 0))).enum.map
        fun rt =>
          (rt.2.1, DCE.tierForRank rt.1
            (DCE.sortDesc (st.predictions.enum.map fun ip =>
              (ip.1, DCE.compositeScore st ip.1 ip.2, (st.raw_scores.get? ip.1).getD 0))).length
            rt.2.2.2))
      = some v := by
  apply lookupN_isSome_of_mem_fst
  set composite := st.predictions.enum.map fun ip =>
    (ip.1, DCE.compositeScore st ip.1 ip.2, (st.raw_scores.get? ip.1).getD 0) with hcomp
  have h1 : (i, pred) ∈ st.predictions.enum := mem_enum_of_get? _ _ _ h
  have h2 : i ∈ composite.map Prod.fst := by
    rw [hcomp, List.map_map]
    exact List.mem_map.mpr ⟨(i, pred), h1, rfl⟩
  have h3 : i ∈ (DCE.sortDesc composite).map Prod.fst :=
    ((DCE.sortDesc_perm composite).map Prod.fst).mem_iff.mpr h2
  obtain ⟨t, ht, htfst⟩ := List.mem_map.mp h3
  obtain ⟨r, hr⟩ := exists_enum_of_mem _ t ht
  rw [List.map_map]
  exact List.mem_map.mpr ⟨(r, t), hr, htfst⟩

/-- Fold preservation: an invariant `I` is maintained and a property `P`,
once true, stays true. -/
theorem foldl_preserves {α β : Type} (f : β → α → β) (I P : β → Prop)
    (hI : ∀ b a, I b → I (f b a)) (hP : ∀ b a, I b → P b → P (f b a)) :
    ∀ (l : List α) (b : β), I b → P b → P (List.foldl f b l) := by
  intro l
  induction l with
  | nil => intro b _ hpb; exact hpb
  | cons a t ih => intro b hib hpb; exact ih (f b a) (hI b a hib) (hP b a hib hpb)

/-- Fold establishment: if processing a particular list element makes `P`
true, and every step preserves both the invariant and `P`, then the fold over
any list containing that element ends with `P`. -/
theorem foldl_establishes {α β : Type} (f : β → α → β) (I P : β → Prop) (x : α)
    (hI : ∀ b a, I b → I (f b a)) (hE : ∀ b, I b → P (f b x))
    (hP : ∀ b a, I b → P b → P (f b a)) :
    ∀ (l : List α) (b : β), I b → x ∈ l → P (List.foldl f b l) := by
  intro l
  induction l with
  | nil => intro b _ hmem; exact absurd hmem (List.not_mem_nil x)
  | cons a t ih =>
    intro b hib hmem
    rcases List.mem_cons.mp hmem with rfl | hmt
    · exact foldl_preserves f I P hI hP t (f b x) (hI b x hib) (hE b hib)
    · exact ih (f b a) (hI b a hib) hmt

/-! ## Concrete fixtures used by witnesses and counterexamples -/

/-- Parsers that fail on every string (the behavior of the real parsers on
malformed input). -/
def dp0 : DateParsers :=
  { fromisoformat := fun _ => none, strptime10 := fun _ => none }

/-- An engine over an empty applicant database, reference date day 0. -/
def engine0 : PredictiveInferenceEngine :=
  { applicant_database := [], reference_date := 0, now := 0 }

/-- A Brazil-designated WO filing with unparseable dates (so the timeline
falls back to `now - 540`, leaving the 30-month deadline open). -/
def wo0 : WOData :=
  { wo_number := some "WO2020/123456", title := none, priority_date := none
    publication_date := none, priority_country := none, brazil_designated := some true
    applicant := none, therapeutic_area := none, ipc_codes := none, family_size := none }

/-- `wo0` with Brazil not designated. -/
def woNoBR : WOData :=
  { wo0 with brazil_designated := some false }

/-- `wo0` with malformed date strings. -/
def woBad : WOData :=
  { wo0 with priority_date := some "not-a-date", publication_date := some "13/01/2020" }

/-- A known BR record whose `notes` field is exactly the WO number of `wo0`. -/
def br0 : BRData :=
  { patent_number := some "BR112021000001", notes := some "WO2020/123456" }

/-! ## Claims -/

/-- C5: `classify_tier` maps every confidence in `[0, 1]` to exactly one
tier, with inclusive lower bounds and no gaps: the six tier labels
characterise exactly the six half-open bands. -/
theorem c5_classify_tier_partition (c : ℚ) (h0 : 0 ≤ c) (h1 : c ≤ 1) :
    (classify_tier c = "PUBLISHED" ↔ 0.95 ≤ c)
    ∧ (classify_tier c = "FOUND" ↔ 0.85 ≤ c ∧ c < 0.95)
    ∧ (classify_tier c = "INFERRED" ↔ 0.72 ≤ c ∧ c < 0.85)
    ∧ (classify_tier c = "EXPECTED" ↔ 0.58 ≤ c ∧ c < 0.72)
    ∧ (classify_tier c = "PREDICTED" ↔ 0.40 ≤ c ∧ c < 0.58)
    ∧ (classify_tier c = "SPECULATIVE" ↔ c < 0.40) := by
  unfold classify_tier
  split_ifs with ha hb hc hd he <;>
    refine ⟨?_, ?_, ?_, ?_, ?_, ?_⟩ <;>
    constructor <;>
    intro hx <;>
    simp_all <;>
    first
      | rfl
      | linarith

/-- Witness for C5 at the concrete confidence 0.8. -/
theorem c5_witness :
    (classify_tier 0.8 = "PUBLISHED" ↔ (0.95 : ℚ) ≤ 0.8)
    ∧ (classify_tier 0.8 = "FOUND" ↔ (0.85 : ℚ) ≤ 0.8 ∧ (0.8 : ℚ) < 0.95)
    ∧ (classify_tier 0.8 = "INFERRED" ↔ (0.72 : ℚ) ≤ 0.8 ∧ (0.8 : ℚ) < 0.85)
    ∧ (classify_tier 0.8 = "EXPECTED" ↔ (0.58 : ℚ) ≤ 0.8 ∧ (0.8 : ℚ) < 0.72)
    ∧ (classify_tier 0.8 = "PREDICTED" ↔ (0.40 : ℚ) ≤ 0.8 ∧ (0.8 : ℚ) < 0.58)
    ∧ (classify_tier 0.8 = "SPECULATIVE" ↔ (0.8 : ℚ) < 0.40) :=
  c5_classify_tier_partition 0.8 (by norm_num) (by norm_num)

/-- C6 counterexample: for a timeline whose 30-month deadline (day 0) lies
five days before the reference date (day 5), the signed difference is `-5`
but `days_until_deadline` returns `0` — the engine clamps at zero, so the
returned value is not the signed `(deadline - reference_date).days`. -/
theorem c6_counterexample :
    PCTTimeline.days_until_deadline
        { priority_date := -900, publication_date := 0, thirty_month_deadline := 0
          brazil_designated := true } 5
      = 0
    ∧ (0 : ℤ) - 5 = -5
    ∧ PCTTimeline.days_until_deadline
        { priority_date := -900, publication_date := 0, thirty_month_deadline := 0
          brazil_designated := true } 5
      ≠ (0 : ℤ) - 5 := by
  refine ⟨?_, by norm_num, ?_⟩ <;>
    simp [days_until_deadline_eq_max]

/-- C6 (amended): `days_until_deadline` returns
`max(0, (deadline - reference_date).days)` — the signed difference clamped
at zero, so it is never negative, it is zero exactly when the deadline has
passed (or is today), and it equals the signed difference only while the
deadline is still ahead.  The engine itself performs the clamping. -/
theorem c6_days_clamped (t : PCTTimeline) (reference_date : ℤ) :
    0 ≤ t.days_until_deadline reference_date
    ∧ (t.days_until_deadline reference_date = 0 ↔ t.thirty_month_deadline ≤ reference_date)
    ∧ (reference_date ≤ t.thirty_month_deadline →
        t.days_until_deadline reference_date = t.thirty_month_deadline - reference_date) := by
  rw [days_until_deadline_eq_max]
  refine ⟨le_max_left 0 _, ?_, fun h => ?_⟩
  · constructor
    · intro h
      by_contra hlt
      push_neg at hlt
      have : 0 < t.thirty_month_deadline - reference_date := by linarith
      omega
    · intro h
      have : t.thirty_month_deadline - reference_date ≤ 0 := by linarith
      omega
  · have : 0 ≤ t.thirty_month_deadline - reference_date := by linarith
    omega

/-- Witness for C6 (amended) with an open deadline: reference day 100,
deadline day 360. -/
theorem c6_witness :
    0 ≤ PCTTimeline.days_until_deadline
        { priority_date := -540, publication_date := 0, thirty_month_deadline := 360
          brazil_designated := true } 100
    ∧ (PCTTimeline.days_until_deadline
          { priority_date := -540, publication_date := 0, thirty_month_deadline := 360
            brazil_designated := true } 100 = 0
        ↔ (360 : ℤ) ≤ 100)
    ∧ ((100 : ℤ) ≤ 360 →
        PCTTimeline.days_until_deadline
          { priority_date := -540, publication_date := 0, thirty_month_deadline := 360
            brazil_designated := true } 100 = 360 - 100) :=
  c6_days_clamped
    { priority_date := -540, publication_date := 0, thirty_month_deadline := 360
      brazil_designated := true } 100

/-- C1: for every WO filing, known-BR set, Cortellis benchmark, engine state
and parser behavior (hence under every error path as well), any inferred
event emitted by `create_inferred_event` carries `br_number = none` in its
`brazilian_prediction` — the engine never constructs a BR identifier. -/
theorem c1_br_number_never_populated (e : PredictiveInferenceEngine) (p : DateParsers)
    (wo_data : WOData) (existing_br_data : List BRData)
    (cortellis_benchmark : Option CortellisBenchmark) (ev : InferredEvent)
    (h : create_inferred_event e p wo_data existing_br_data cortellis_benchmark = some ev) :
    ev.brazilian_prediction.br_number = none := by
  by_cases hg : should_create_inferred_event e p wo_data existing_br_data = true
  · rw [create_inferred_event, if_pos hg] at h
    cases Option.some.inj h
    rfl
  · rw [create_inferred_event, if_neg hg] at h
    exact Option.noConfusion h

/-- Witness for C1: the gate accepts `wo0` against an empty known-BR set and
the emitted event has `br_number = none`. -/
theorem c1_witness :
    Option.map (fun ev => ev.brazilian_prediction.br_number)
      (create_inferred_event engine0 dp0 wo0 [] none) = some none := by
  have hs : (create_inferred_event engine0 dp0 wo0 [] none).isSome = true := rfl
  obtain ⟨ev, hev⟩ := Option.isSome_iff_exists.mp hs
  rw [hev, Option.map_some']
  exact congrArg some (c1_br_number_never_populated engine0 dp0 wo0 [] none ev hev)

/-- C3: the inference gate rejects — and `create_inferred_event` emits
nothing — whenever Brazil was not designated, and whenever a known BR record
already references the filing by its exact `wo_number` (the source substring
test over the `notes` field in particular fires on an exact match). -/
theorem c3_gate_rejects (e : PredictiveInferenceEngine) (p : DateParsers) (wo_data : WOData)
    (existing_br_data : List BRData) (cb : Option CortellisBenchmark) :
    (wo_data.brazil_designated.getD false = false →
        should_create_inferred_event e p wo_data existing_br_data = false
        ∧ create_inferred_event e p wo_data existing_br_data cb = none)
    ∧ ((∃ br ∈ existing_br_data, br.notes.getD "" = wo_data.wo_number.getD "") →
        create_inferred_event e p wo_data existing_br_data cb = none) := by
  constructor
  · intro hbd
    have hs : should_create_inferred_event e p wo_data existing_br_data = false := by
      unfold should_create_inferred_event
      simp [PCTTimeline.from_wo_data, hbd]
    exact ⟨hs, by rw [create_inferred_event, if_neg (by simp [hs])]⟩
  · rintro ⟨br, hmem, heq⟩
    have hany : existing_br_data.any
        (fun br_data => pyIn (wo_data.wo_number.getD "") (br_data.notes.getD "")) = true := by
      refine List.any_eq_true.mpr ⟨br, hmem, ?_⟩
      rw [heq]
      exact pyIn_self _
    have hs : should_create_inferred_event e p wo_data existing_br_data = false := by
      unfold should_create_inferred_event
      cases hb : (PCTTimeline.from_wo_data p wo_data e.now).brazil_designated
      · simp [hb]
      · simp [hb, hany]
    rw [create_inferred_event, if_neg (by simp [hs])]

/-- Witness for C3: a filing without Brazil designation is rejected, and
`wo0` is rejected once a known BR record references `WO2020/123456`. -/
theorem c3_witness :
    (should_create_inferred_event engine0 dp0 woNoBR [] = false
      ∧ create_inferred_event engine0 dp0 woNoBR [] none = none)
    ∧ create_inferred_event engine0 dp0 wo0 [br0] none = none :=
  ⟨(c3_gate_rejects engine0 dp0 woNoBR [] none).1 rfl,
   (c3_gate_rejects engine0 dp0 wo0 [br0] none).2 ⟨br0, by simp, rfl⟩⟩

/-- C9: timeline construction fails soft.  Whenever the two-stage parse
cascade fails on the priority (resp. publication) date string — which is
what happens on malformed input, and on missing input since the parsers
reject the empty string — `from_wo_data` substitutes `now - 540` days
(resp. `now`).  The model function is total, matching the bare `except:`
arms that keep any parse failure from propagating to the caller. -/
theorem c9_from_wo_data_fail_soft (p : DateParsers) (wo : WOData) (now : ℤ) :
    (parseDateCascade p (wo.priority_date.getD "") = none →
        (PCTTimeline.from_wo_data p wo now).priority_date = now - 540)
    ∧ (parseDateCascade p (wo.publication_date.getD "") = none →
        (PCTTimeline.from_wo_data p wo now).publication_date = now) := by
  constructor <;> intro h <;> simp [PCTTimeline.from_wo_data, h]

/-- Witness for C9 on `woBad`, whose two date strings defeat both parsers. -/
theorem c9_witness :
    (PCTTimeline.from_wo_data dp0 woBad 0).priority_date = 0 - 540
    ∧ (PCTTimeline.from_wo_data dp0 woBad 0).publication_date = 0 :=
  ⟨(c9_from_wo_data_fail_soft dp0 woBad 0).1 rfl,
   (c9_from_wo_data_fail_soft dp0 woBad 0).2 rfl⟩

/-- A nested `confidence_analysis` dict as built by the inference engine
before recalibration: score 0.60, tier EXPECTED, no calibration keys. -/
def conf0 : DCE.ConfAnalysis :=
  { overall_confidence := 0.60, confidence_tier := "EXPECTED"
    classification_method := none, rank_percentile := none }

/-- A prediction object whose nested `confidence_analysis` dict lives at
heap address 0. -/
def pred2 : DCE.PredObj :=
  { publication_date := some "2021-03-01", inventors := some ["A", "B"]
    days_until_deadline := some 120, conf_addr := 0 }

/-- A calibrator engine state holding the single prediction `pred2`, built
through `add_prediction` (which reads raw score 0.60 out of the shared
nested dict). -/
def st2 : DCE.EngineState :=
  DCE.add_prediction { predictions := [], raw_scores := [], store := [conf0] } pred2

/-- Timeline fixture for C4: deadline on day 200, reference day 0, so the
timeline bucket is `180 < days_left ≤ 365` (score 0.85). -/
def tl4 : PCTTimeline :=
  { priority_date := -700, publication_date := 0, thirty_month_deadline := 200
    brazil_designated := true }

/-- Applicant fixture for C4: filing rate 0.5 (multiplier 0.8, score 0.40). -/
def app4 : ApplicantBehavior :=
  { applicant_name := "Acme Pharma", total_wo_brazil_designated := 2
    total_br_filings_found := 1, filing_rate := 0.5, therapeutic_areas := []
    last_updated := 0 }

/-- Market fixture for C4: no priority IPC and no priority area
(multiplier 0.9, score 0.72). -/
def mkt4 : MarketRelevance :=
  { therapeutic_area := "Unknown", ipc_codes := [] }

/-- C4 counterexample: at timeline score 0.85, applicant score 0.40, market
score 0.72 and family score 0.45, the weighted minimum is 0.604, but
`calculate_confidence` reports `overall_confidence = 0.60`: the returned
field is the two-decimal rounding of the capped weighted sum, not the
capped weighted sum itself. -/
theorem c4_counterexample :
    (calculate_confidence engine0 tl4 app4 mkt4 1).overall_confidence = 0.60
    ∧ min ((timelineComponent engine0 tl4).1 * 0.30 + applicantScore app4 * 0.40
        + marketScore mkt4 * 0.20 + (familyComponent 1).1 * 0.10) 0.95 = 0.604
    ∧ (calculate_confidence engine0 tl4 app4 mkt4 1).overall_confidence
        ≠ min ((timelineComponent engine0 tl4).1 * 0.30 + applicantScore app4 * 0.40
            + marketScore mkt4 * 0.20 + (familyComponent 1).1 * 0.10) 0.95 := by
  have hT : (timelineComponent engine0 tl4).1 = 0.85 := rfl
  have hA : applicantScore app4 = 0.40 := by
    simp only [applicantScore, app4, ApplicantBehavior.confidence_multiplier, pyMin]
    norm_num
  have hM : marketScore mkt4 = 0.72 := by
    have hm : mkt4.market_multiplier = 0.9 := rfl
    simp only [marketScore, hm]
    norm_num
  have hF : (familyComponent 1).1 = 0.45 := rfl
  have hW : (timelineComponent engine0 tl4).1 * 0.30 + applicantScore app4 * 0.40
      + marketScore mkt4 * 0.20 + (familyComponent 1).1 * 0.10 = 0.604 := by
    rw [hT, hA, hM, hF]; norm_num
  have hmin : min ((timelineComponent engine0 tl4).1 * 0.30 + applicantScore app4 * 0.40
      + marketScore mkt4 * 0.20 + (familyComponent 1).1 * 0.10) 0.95 = 0.604 := by
    rw [hW]; exact min_eq_left (by norm_num)
  have hoc : (calculate_confidence engine0 tl4 app4 mkt4 1).overall_confidence
      = pyRound (pyMin ((timelineComponent engine0 tl4).1 * 0.30 + applicantScore app4 * 0.40
          + marketScore mkt4 * 0.20 + (familyComponent 1).1 * 0.10) 0.95) 2 := rfl
  have hpm : pyMin ((timelineComponent engine0 tl4).1 * 0.30 + applicantScore app4 * 0.40
      + marketScore mkt4 * 0.20 + (familyComponent 1).1 * 0.10) 0.95 = 0.604 := by
    rw [pyMin, hW]
    norm_num
  have hfl : ⌊(0.604 : ℚ) * 10 ^ 2⌋ = (60 : ℤ) := by
    rw [Int.floor_eq_iff] <;> norm_num
  have hbr : bankersRound ((0.604 : ℚ) * 10 ^ 2) = 60 := by
    unfold bankersRound
    rw [hfl]
    norm_num
  have hround : pyRound (0.604 : ℚ) 2 = 0.60 := by
    unfold pyRound
    rw [hbr]
    norm_num
  refine ⟨?_, hmin, ?_⟩
  · rw [hoc, hpm, hround]
  · rw [hoc, hpm, hround, hmin]
    norm_num

/-- C4 (amended): for every input combination, the reported
`overall_confidence` equals `round(min(0.30·T + 0.40·A + 0.20·M + 0.10·F,
0.95), 2)` — the spec formula followed by the source rounding to two
decimals — and in particular it never exceeds 0.95. -/
theorem c4_confidence_formula (e : PredictiveInferenceEngine) (timeline : PCTTimeline)
    (applicant : ApplicantBehavior) (market : MarketRelevance) (family_size : ℤ) :
    (calculate_confidence e timeline applicant market family_size).overall_confidence
      = pyRound (min ((timelineComponent e timeline).1 * 0.30 + applicantScore applicant * 0.40
          + marketScore market * 0.20 + (familyComponent family_size).1 * 0.10) 0.95) 2
    ∧ (calculate_confidence e timeline applicant market family_size).overall_confidence
        ≤ 0.95 := by
  have h1 : (calculate_confidence e timeline applicant market family_size).overall_confidence
      = pyRound (min ((timelineComponent e timeline).1 * 0.30 + applicantScore applicant * 0.40
          + marketScore market * 0.20 + (familyComponent family_size).1 * 0.10) 0.95) 2 := rfl
  exact ⟨h1, h1 ▸ pyRound_le_095 _ (min_le_right _ _)⟩

/-- Second merge of the same observation sets is a no-op: generic lemma for
C7, applicable once the stored entry already absorbs the new ids. -/
theorem update_second_noop (db1 : List (String × LearnedEntry)) (applicant : String)
    (wos brs areas : Finset String) (t2 : ℤ) (h0 : ¬wos.card = 0)
    (e : LearnedEntry) (hl : lookupA applicant db1 = some e)
    (hw : wos ⊆ e.observed_wos) (hb : brs ⊆ e.observed_brs) :
    _update_applicant db1 applicant wos brs areas t2 = (false, db1) := by
  have h1 : e.observed_wos ∪ wos = e.observed_wos := Finset.union_eq_left.mpr hw
  have h2 : e.observed_brs ∪ brs = e.observed_brs := Finset.union_eq_left.mpr hb
  unfold _update_applicant
  simp [h0, hl, h1, h2]

/-- C7: learning is idempotent.  For every database, applicant and
observation sets, running `_update_applicant` twice with the same sets makes
the second call return `False` and leave the database — entry fields and
`last_updated` timestamp included — exactly as the first call left it. -/
theorem c7_learning_idempotent (db : List (String × LearnedEntry)) (applicant : String)
    (wos brs areas : Finset String) (t1 t2 : ℤ) :
    (_update_applicant (_update_applicant db applicant wos brs areas t1).2
        applicant wos brs areas t2).1 = false
    ∧ (_update_applicant (_update_applicant db applicant wos brs areas t1).2
        applicant wos brs areas t2).2
      = (_update_applicant db applicant wos brs areas t1).2 := by
  suffices h : _update_applicant (_update_applicant db applicant wos brs areas t1).2
      applicant wos brs areas t2
      = (false, (_update_applicant db applicant wos brs areas t1).2) by
    rw [h]
    exact ⟨rfl, rfl⟩
  by_cases h0 : wos.card = 0
  · unfold _update_applicant
    rw [if_pos h0]
  · have hkey : ∃ e, lookupA applicant (_update_applicant db applicant wos brs areas t1).2
        = some e ∧ wos ⊆ e.observed_wos ∧ brs ⊆ e.observed_brs := by
      cases hl : lookupA applicant db with
      | none =>
        unfold _update_applicant
        simp only [h0, if_false, hl]
        exact ⟨_, lookupA_setKeyA_self _ _ _, Finset.Subset.refl _, Finset.Subset.refl _⟩
      | some entry =>
        by_cases hc : entry.observed_wos ∪ wos = entry.observed_wos
            ∧ entry.observed_brs ∪ brs = entry.observed_brs
        · refine ⟨entry, ?_, Finset.union_eq_left.mp hc.1, Finset.union_eq_left.mp hc.2⟩
          unfold _update_applicant
          simp [h0, hl, hc.1, hc.2]
        · unfold _update_applicant
          simp only [h0, if_false, hl, hc]
          exact ⟨_, lookupA_setKeyA_self _ _ _,
            Finset.subset_union_right, Finset.subset_union_right⟩
    obtain ⟨e, hl1, hw, hb⟩ := hkey
    exact update_second_noop _ applicant wos brs areas t2 h0 e hl1 hw hb

/-- Learned-entry fixture for the C8 database. -/
def entryBAYER : LearnedEntry :=
  { applicant_name := "BAYER", total_wo_brazil_designated := 10
    total_br_filings_found := 9, filing_rate := 0.9, therapeutic_areas := ∅
    observed_wos := ∅, observed_brs := ∅, last_updated := 0
    data_source := "seed", confidence := "low" }

/-- Modelled from the spec (§4.2): the three-stage lookup the claim asserts —
exact match on the normalized key, else substring fuzzy match against the
existing keys, else a synthetic default with `filing_rate = 0.5` and low
evidence.  Defined from the spec text, for comparison with the source
lookups (no function in the cited source implements it). -/
def lookupThreeStageSpec (database : List (String × LearnedEntry)) (applicant : String) :
    LearnedEntry :=
  let key := _normalize_applicant_name applicant
  match lookupA key database with
  | some e => e
  | none =>
    match database.find? (fun kv => pyIn kv.1 key || pyIn key kv.1) with
    | some kv => kv.2
    | none =>
      { applicant_name := key, total_wo_brazil_designated := 0, total_br_filings_found := 0
        filing_rate := 0.5, therapeutic_areas := ∅, observed_wos := ∅, observed_brs := ∅
        last_updated := 0, data_source := "synthetic_default", confidence := "low" }

/-- C8 counterexample: on a database holding the key `"BAYER"`, the source
lookup `get_applicant_behavior "BAYER AG"` returns `none` — the cited lookup
has no substring fuzzy stage and no synthetic default — whereas the
three-stage resolution the claim asserts would return the `"BAYER"` record
through its substring match. -/
theorem c8_counterexample :
    get_applicant_behavior [("BAYER", entryBAYER)] "BAYER AG" = none
    ∧ (lookupThreeStageSpec [("BAYER", entryBAYER)] "BAYER AG").applicant_name = "BAYER"
    ∧ (lookupThreeStageSpec [("BAYER", entryBAYER)] "BAYER AG").filing_rate = 0.9 := by
  refine ⟨?_, ?_, ?_⟩ <;> rfl

/-- C8 (amended): lookup is split over two two-stage mechanisms, neither of
which fuzzy-matches: the store lookup `get_applicant_behavior` is exactly an
exact match on the normalized key (`none` on a miss — both functions are
total, so neither raises), and the engine falls back, inside
`create_inferred_event`, to a synthetic default behavior with
`filing_rate = 0.5` on an exact-match miss of the raw applicant name, which
yields an applicant factor score of 0.40 in the emitted event. -/
theorem c8_lookup_two_stage :
    (∀ (db : List (String × LearnedEntry)) (applicant : String),
        get_applicant_behavior db applicant = lookupA (_normalize_applicant_name applicant) db)
    ∧ (∀ (e : PredictiveInferenceEngine) (p : DateParsers) (wo : WOData)
        (existing : List BRData) (cb : Option CortellisBenchmark) (ev : InferredEvent),
        lookupA (wo.applicant.getD "Unknown") e.applicant_database = none →
        create_inferred_event e p wo existing cb = some ev →
        ev.brazilian_prediction.confidence_analysis.factors.applicant_behavior.score = 0.40) := by
  constructor
  · intro db applicant
    rfl
  · intro e p wo existing cb ev hnone h
    by_cases hg : should_create_inferred_event e p wo existing = true
    · rw [create_inferred_event, if_pos hg] at h
      cases Option.some.inj h
      show pyRound (applicantScore ((lookupA (wo.applicant.getD "Unknown")
        e.applicant_database).getD
          { applicant_name := wo.applicant.getD "Unknown", total_wo_brazil_designated := 1
            total_br_filings_found := 0, filing_rate := 0.50, therapeutic_areas := []
            last_updated := e.now })) 2 = 0.40
      rw [hnone, Option.getD_none]
      have hA : applicantScore
          { applicant_name := wo.applicant.getD "Unknown", total_wo_brazil_designated := 1
            total_br_filings_found := 0, filing_rate := 0.50, therapeutic_areas := []
            last_updated := e.now } = 0.40 := by
        simp only [applicantScore, ApplicantBehavior.confidence_multiplier, pyMin]
        norm_num
      rw [hA]
      have hf : ⌊(0.40 : ℚ) * 10 ^ 2⌋ = (40 : ℤ) := by
        rw [Int.floor_eq_iff] <;> norm_num
      unfold pyRound bankersRound
      rw [hf]
      norm_num
    · rw [create_inferred_event, if_neg hg] at h
      exact Option.noConfusion h

/-- Witness for C8 (amended): the unknown applicant of `wo0` resolves to the
synthetic default and the emitted event carries applicant factor score 0.40. -/
theorem c8_witness :
    get_applicant_behavior [("BAYER", entryBAYER)] "Pfizer"
      = lookupA (_normalize_applicant_name "Pfizer") [("BAYER", entryBAYER)]
    ∧ Option.map
        (fun ev => ev.brazilian_prediction.confidence_analysis.factors.applicant_behavior.score)
        (create_inferred_event engine0 dp0 wo0 [] none) = some 0.40 := by
  refine ⟨c8_lookup_two_stage.1 _ _, ?_⟩
  have hs : (create_inferred_event engine0 dp0 wo0 [] none).isSome = true := rfl
  obtain ⟨ev, hev⟩ := Option.isSome_iff_exists.mp hs
  rw [hev, Option.map_some']
  exact congrArg some (c8_lookup_two_stage.2 engine0 dp0 wo0 [] none ev rfl hev)

/-- Discriminator used by the C10 counterexample. -/
def pjIsStr : PJson → Bool
  | PJson.str _ => true
  | _ => false

/-- C10 counterexample: when the input document already holds a
`predictive_intelligence` key, `add_predictive_layer` overwrites its value
(the key maps to the freshly built object, not to the input value), so not
every input key keeps its value. -/
theorem c10_counterexample :
    lookupA "predictive_intelligence"
        (add_predictive_layer dp0 [("predictive_intelligence", PJson.str "x")] [] [] none 0)
      ≠ some (PJson.str "x") := by
  intro h
  have h2 := congrArg (Option.map pjIsStr) h
  rw [show Option.map pjIsStr (lookupA "predictive_intelligence"
      (add_predictive_layer dp0 [("predictive_intelligence", PJson.str "x")] [] [] none 0))
    = some false from rfl] at h2
  simp [pjIsStr] at h2

/-- C10 (amended): `add_predictive_layer` is additive at the top level
except at the key `predictive_intelligence`: every other key keeps exactly
its input value, no other key is added (a key absent from the output was
absent from the input), and the output always carries a
`predictive_intelligence` entry — overwriting any pre-existing value under
that key.  (The input dict itself is copied before the assignment, so it is
never modified.) -/
theorem c10_additive_except_key (p : DateParsers) (main_json : List (String × PJson))
    (wipo : List WOData) (adb : List (String × ApplicantBehavior))
    (cb : Option CortellisBenchmark) (now : ℤ) :
    (∀ k, k ≠ "predictive_intelligence" →
        lookupA k (add_predictive_layer p main_json wipo adb cb now) = lookupA k main_json)
    ∧ (lookupA "predictive_intelligence"
        (add_predictive_layer p main_json wipo adb cb now)).isSome = true
    ∧ (∀ k, lookupA k (add_predictive_layer p main_json wipo adb cb now) = none →
        lookupA k main_json = none) := by
  refine ⟨?_, ?_, ?_⟩
  · intro k hk
    exact lookupA_setKeyA_ne k _ _ main_json hk
  · simp only [add_predictive_layer]
    rw [lookupA_setKeyA_self]
    rfl
  · intro k h
    by_cases hk : k = "predictive_intelligence"
    · subst hk
      simp only [add_predictive_layer] at h
      rw [lookupA_setKeyA_self] at h
      exact Option.noConfusion h
    · simp only [add_predictive_layer] at h
      rw [lookupA_setKeyA_ne k _ _ main_json hk] at h
      exact h

/-- Witness for C10 (amended): on a document holding only an `inpi` list,
the `inpi` entry is preserved and the `predictive_intelligence` entry is
present in the output. -/
theorem c10_witness :
    lookupA "inpi" (add_predictive_layer dp0 [("inpi", PJson.arr [])] [] [] none 0)
      = lookupA "inpi" [("inpi", PJson.arr [])]
    ∧ (lookupA "predictive_intelligence"
        (add_predictive_layer dp0 [("inpi", PJson.arr [])] [] [] none 0)).isSome = true :=
  ⟨(c10_additive_except_key dp0 [("inpi", PJson.arr [])] [] [] none 0).1 "inpi" (by decide),
   (c10_additive_except_key dp0 [("inpi", PJson.arr [])] [] [] none 0).2.1⟩

/-- Step 4 of `finalize_and_classify` stamps the nested dict of any
prediction that has a tier assignment: once its iteration runs, the heap
cell at its `conf_addr` carries `classification_method =
"rank_based_forced_distribution"`, and every later iteration preserves
that (each write stamps the same method label). -/
theorem DCE.fold_apply_stamps (st : DCE.EngineState)
    (assignments : List (ℕ × String × ℚ)) (sorted : List (ℕ × ℚ × ℚ)) (total : ℕ)
    (x : ℕ × DCE.PredObj) (hx : ∃ v, DCE.lookupN x.1 assignments = some v) :
    ∀ (l : List (ℕ × DCE.PredObj)) (b : List DCE.ConfAnalysis),
      b.length = st.store.length → x.2.conf_addr < st.store.length → x ∈ l →
      ∃ c, (List.foldl (DCE.applyAssignment st assignments sorted total) b l).get?
          x.2.conf_addr = some c
        ∧ c.classification_method = some "rank_based_forced_distribution" := by
  intro l b hb haddr hmem
  refine foldl_establishes (DCE.applyAssignment st assignments sorted total)
    (fun s => s.length = st.store.length)
    (fun s => ∃ c, s.get? x.2.conf_addr = some c
      ∧ c.classification_method = some "rank_based_forced_distribution")
    x ?_ ?_ ?_ l b hb hmem
  · intro s a hs
    unfold DCE.applyAssignment
    cases h2 : DCE.lookupN a.1 assignments with
    | none => exact hs
    | some v =>
      obtain ⟨tier, adj⟩ := v
      simpa using hs
  · intro s hs
    obtain ⟨v, hv⟩ := hx
    obtain ⟨tier, adj⟩ := v
    unfold DCE.applyAssignment
    rw [hv]
    exact ⟨_, get?_set_self _ _ _ (by rw [hs]; exact haddr), rfl⟩
  · intro s a hs hps
    obtain ⟨c, hc, hcm⟩ := hps
    unfold DCE.applyAssignment
    cases h2 : DCE.lookupN a.1 assignments with
    | none => exact ⟨c, hc, hcm⟩
    | some v =>
      obtain ⟨tier, adj⟩ := v
      by_cases he : a.2.conf_addr = x.2.conf_addr
      · rw [he]
        exact ⟨_, get?_set_self _ _ _ (by rw [hs]; exact haddr), rfl⟩
      · refine ⟨c, ?_, hcm⟩
        rw [get?_set_ne _ _ _ _ (fun hcontra => he hcontra.symm)]
        exact hc

/-- C2 (amended): `finalize_and_classify` is not a side-effect-free
transform on its inputs.  The returned predictions are shallow copies —
value-identical to the inputs, sharing each nested `confidence_analysis`
dict — and the recalibrated values are written into those shared dicts, so
after the call every input prediction with a valid nested dict observes,
through its own reference, a `confidence_analysis` stamped with
`classification_method = "rank_based_forced_distribution"` and the
recalibrated score and tier. -/
theorem c2_calibrator_mutates_shared_dicts (st : DCE.EngineState) :
    (DCE.finalize_and_classify st).1 = st.predictions
    ∧ ∀ (i : ℕ) (pred : DCE.PredObj), st.predictions.get? i = some pred →
        pred.conf_addr < st.store.length →
        ∃ c, (DCE.finalize_and_classify st).2.get? pred.conf_addr = some c
          ∧ c.classification_method = some "rank_based_forced_distribution" := by
  constructor
  · unfold DCE.finalize_and_classify
    split_ifs with h
    · exact (List.isEmpty_iff.mp h).symm
    · rfl
  · intro i pred hget haddr
    have hemp : st.predictions.isEmpty = false := by
      cases hx : st.predictions with
      | nil => rw [hx] at hget; exact Option.noConfusion hget
      | cons a t => rfl
    unfold DCE.finalize_and_classify
    rw [hemp]
    simp only [Bool.false_eq_true, if_false]
    exact DCE.fold_apply_stamps st _ _ _ (i, pred)
      (DCE.assignment_exists st i pred hget)
      st.predictions.enum st.store rfl haddr (mem_enum_of_get? _ _ _ hget)

/-- C2 counterexample: `add_prediction` then `finalize_and_classify` on a
single prediction whose nested `confidence_analysis` holds
`overall_confidence = 0.60`, `confidence_tier = "EXPECTED"`.  After the
call, reading that same nested dict through the original input record
yields `0.80` and `"FOUND"` — the input record was mutated through the
shared nested dict of the shallow copy, so the inputs are not left
unchanged as the claim states. -/
theorem c2_counterexample :
    ((DCE.finalize_and_classify st2).2.get? 0).map
        (fun c => (c.overall_confidence, c.confidence_tier))
      = some (0.80, "FOUND")
    ∧ (st2.store.get? 0).map (fun c => (c.overall_confidence, c.confidence_tier))
      = some (0.60, "EXPECTED")
    ∧ ((0.80 : ℚ), "FOUND") ≠ ((0.60 : ℚ), "EXPECTED") := by
  refine ⟨?_, rfl, by simp⟩
  have ht : DCE.tierForRank 0 1 (3/5 : ℚ) = ("FOUND", 4/5) := by
    unfold DCE.tierForRank pyMin
    norm_num
  have hp : pyRound (4/5 : ℚ) 2 = 4/5 := by
    unfold pyRound bankersRound
    norm_num
  have e1 : st2 = ⟨[pred2], [0.60], [conf0]⟩ := rfl
  rw [e1]
  simp only [DCE.finalize_and_classify, DCE.applyAssignment, DCE.compositeScore,
    DCE.sortDesc, DCE.insertDesc, DCE.lookupN, List.isEmpty_cons, Bool.false_eq_true,
    if_false, List.enum, List.enumFrom, List.map, List.foldl, List.length]
  norm_num [List.findIdx, List.findIdx.go, pred2, conf0, ht, hp]

/-- Witness for C2 (amended) on the concrete state `st2`: prediction 0 has a
valid nested dict and, after the pass, that dict is stamped with the
rank-based classification method. -/
theorem c2_witness :
    st2.predictions.get? 0 = some pred2
    ∧ pred2.conf_addr < st2.store.length
    ∧ ∃ c, (DCE.finalize_and_classify st2).2.get? pred2.conf_addr = some c
        ∧ c.classification_method = some "rank_based_forced_distribution" :=
  ⟨rfl, by decide,
   (c2_calibrator_mutates_shared_dicts st2).2 0 pred2 rfl (by decide)⟩

end Pharmyrus
